import Mathlib

/-!
Verification of the two API-client classes of this repository
(`src/services/atlantis/atlantis.py` and `src/services/github/github.py`)
against their natural-language specification.

The Python code is shallowly embedded: every method that the claims touch
is translated into a pure Lean function.  Stateful SDK calls (git object
creation, reference updates) are modelled by explicit state passing over a
`RepoState` record that also keeps a log of the write operations submitted
to the server, so that properties such as "the branch reference is updated
exactly once" are expressible.  Python exceptions are modelled by an
`Except PyExc` result; Python truthiness of optional strings by `truthy`.
-/

/-- Python exception values that the embedded code can raise:
`GithubException` (with its HTTP status and message), `ValueError`,
`requests.exceptions.HTTPError` (from `raise_for_status`), and a generic
catch-all `Exception`. -/
inductive PyExc where
  | github (status : Nat) (msg : String)
  | valueError (msg : String)
  | httpError (status : Nat)
  | other (msg : String)
deriving DecidableEq, Repr

/-- Rendering of an exception as in Python `str(e)` (used in f-strings).
The exact SDK rendering is irrelevant to the claims, which only inspect
fixed phrases of the surrounding message. -/
def excStr : PyExc → String
  | .github s m => toString s ++ " " ++ m
  | .valueError m => m
  | .httpError s => toString s
  | .other m => m

/-- Python truthiness of an optional string argument:
`None` and the empty string are falsy. -/
def truthy : Option String → Bool
  | none => false
  | some s => !(s == "")

/-- `mentions s pat` states that the string `pat` occurs somewhere in `s`
(`s` "mentions" `pat`). -/
def mentions (s pat : String) : Prop := ∃ a b, s = a ++ pat ++ b

/-- JSON values, for request bodies (`json=` payloads of `requests`). -/
inductive JVal where
  | str (s : String)
  | int (i : Int)
  | arr (l : List JVal)
  | obj (l : List (String × JVal))

/-! ## Workflow-Automation Client (`AtlantisService`) -/

/-- Python `base_url.rstrip("/")`: remove every trailing `'/'`. -/
def rstripSlash (s : String) : String :=
  String.mk ((s.data.reverse.dropWhile (fun c => c = '/')).reverse)

/-- The state an `AtlantisService` instance holds after `__init__`:
the normalized base url, the optional `HTTPBasicAuth(username, password)`
credential, the header mapping (in insertion order), and the transport
settings. -/
structure AtlantisState where
  base_url : String
  auth : Option (String × String)
  headers : List (String × String)
  verify_ssl : Bool
  timeout : Nat
deriving DecidableEq, Repr

/-- Embedding of `AtlantisService.__init__` (atlantis.py lines 20-65).
Returns the constructed state or the raised `ValueError`. -/
def atlantisInit (base_url : String) (username password token : Option String)
    (verify_ssl : Bool) (timeout : Nat) : Except PyExc AtlantisState :=
  if base_url == "" then
    .error (.valueError "base_url is required")
  else if !truthy username && !truthy password && !truthy token then
    .error (.valueError
      "Either username/password or token must be provided for authentication")
  else
    let st : AtlantisState :=
      { base_url := rstripSlash base_url, auth := none, headers := [],
        verify_ssl := verify_ssl, timeout := timeout }
    if truthy token then
      .ok { st with headers :=
              [("X-Atlantis-Token", token.getD ""),
               ("Authorization", "Bearer " ++ token.getD "")] }
    else if truthy username && truthy password then
      .ok { st with auth := some (username.getD "", password.getD "") }
    else
      .ok st

/-- The HTTP request that `_make_request` hands to `requests.request`
(atlantis.py lines 89-100). -/
structure HttpRequest where
  method : String
  url : String
  params : Option (List (String × String))
  json_data : Option (List (String × JVal))
  auth : Option (String × String)
  headers : List (String × String)
  verify : Bool
  timeout : Nat

/-- The request-building half of `AtlantisService._make_request`
(atlantis.py lines 89-100): builds the full URL and attaches the stored
auth, headers and transport settings. -/
def buildRequest (st : AtlantisState) (method endpoint : String)
    (params : Option (List (String × String)))
    (json_data : Option (List (String × JVal))) : HttpRequest :=
  { method := method, url := st.base_url ++ endpoint, params := params,
    json_data := json_data, auth := st.auth, headers := st.headers,
    verify := st.verify_ssl, timeout := st.timeout }

/-- `requests.Response.raise_for_status`: raises `HTTPError` exactly for
status codes in `[400, 600)` (client and server errors). -/
def raise_for_status (status : Nat) : Option PyExc :=
  if 400 ≤ status ∧ status < 600 then some (.httpError status) else none

/-- The response-handling half of `AtlantisService._make_request`
(atlantis.py lines 102-108): `raise_for_status`, then an empty mapping for
status 204 or a blank body, otherwise the parsed JSON body (`parsed` stands
for `response.json()` of the non-blank body `text`). -/
def handle_response (status : Nat) (text : String)
    (parsed : List (String × JVal)) : Except PyExc (List (String × JVal)) :=
  match raise_for_status status with
  | some e => .error e
  | none => if status = 204 ∨ text = "" then .ok [] else .ok parsed

/-- One element of the `paths` argument of `plan`/`apply`: a dictionary of
strings, embedded as a JSON object. -/
def pathsObj (d : List (String × String)) : JVal :=
  .obj (d.map (fun p => (p.1, JVal.str p.2)))

/-- The JSON payload assembled by `AtlantisService.plan` and
`AtlantisService.apply` (atlantis.py lines 309-317 and 362-370). -/
def planApplyPayload (repository ref vcs_type : String)
    (paths : List (List (String × String))) (pr_number : Option Int) :
    List (String × JVal) :=
  let payload := [("Repository", JVal.str repository), ("Ref", JVal.str ref),
                  ("Type", JVal.str vcs_type),
                  ("Paths", JVal.arr (paths.map pathsObj))]
  match pr_number with
  | some n => payload ++ [("PR", JVal.int n)]
  | none => payload

/-- Embedding of `AtlantisService.plan` (atlantis.py lines 268-319), up to
the request it sends: a POST to `/api/plan` with the assembled payload. -/
def plan (st : AtlantisState) (repository ref vcs_type : String)
    (paths : List (List (String × String))) (pr_number : Option Int) :
    HttpRequest :=
  buildRequest st "POST" "/api/plan" none
    (some (planApplyPayload repository ref vcs_type paths pr_number))

/-- Embedding of `AtlantisService.apply` (atlantis.py lines 321-372), up to
the request it sends: a POST to `/api/apply` with the assembled payload. -/
def applyOp (st : AtlantisState) (repository ref vcs_type : String)
    (paths : List (List (String × String))) (pr_number : Option Int) :
    HttpRequest :=
  buildRequest st "POST" "/api/apply" none
    (some (planApplyPayload repository ref vcs_type paths pr_number))

/-! ## Source-Hosting Client (`GitHubService`): git object model

The PyGithub calls used by `push_to_pull_request`, `create_branch` and
`push_files_to_branch` are modelled against a server state holding the
repository's refs, commits, trees and blobs.  Object creation draws a
fresh id from the `nextSha` counter; every write submitted to the server
is also recorded in the `log`. -/

/-- One git tree entry: `(path, mode, type, sha)`, as read from
`get_git_tree(..., recursive=True)` and as submitted through
`InputGitTreeElement`. -/
structure TreeEntry where
  path : String
  mode : String
  type : String
  sha : Nat
deriving DecidableEq, Repr

/-- A git commit object: its tree, its parent commits, and its message. -/
structure GitCommit where
  tree : Nat
  parents : List Nat
  message : String
deriving DecidableEq, Repr

/-- A write operation submitted to the git server. -/
inductive GitEvent where
  | createBlob (sha : Nat) (content : String)
  | createTree (sha : Nat) (entries : List TreeEntry) (baseTree : Nat)
  | createCommit (sha : Nat) (message : String) (tree : Nat) (parents : List Nat)
  | editRef (ref : String) (sha : Nat)
  | createRef (ref : String) (sha : Nat)
deriving DecidableEq, Repr

/-- The server-side state of one repository.  `refs` is keyed by the full
reference name (`"refs/heads/..."`); object stores are keyed by sha, newest
first.  `nextSha` supplies fresh object ids; `log` records submitted
writes. -/
structure RepoState where
  refs : List (String × Nat)
  commits : List (Nat × GitCommit)
  trees : List (Nat × List TreeEntry)
  blobs : List (Nat × String)
  nextSha : Nat
  log : List GitEvent
deriving DecidableEq, Repr

/-- `repository.get_git_ref(ref)` with `ref` like `"heads/branch"`:
resolves the full name `"refs/" + ref`, raising a 404 `GithubException`
when the reference does not exist. -/
def get_git_ref (st : RepoState) (ref : String) : Except PyExc Nat :=
  match st.refs.lookup ("refs/" ++ ref) with
  | some sha => .ok sha
  | none => .error (.github 404 "Not Found")

/-- `repository.get_git_commit(sha)`. -/
def get_git_commit (st : RepoState) (sha : Nat) : Except PyExc GitCommit :=
  match st.commits.lookup sha with
  | some c => .ok c
  | none => .error (.github 404 "Not Found")

/-- `repository.get_git_tree(sha, recursive=True)`: the flat entry list. -/
def get_git_tree (st : RepoState) (sha : Nat) : Except PyExc (List TreeEntry) :=
  match st.trees.lookup sha with
  | some t => .ok t
  | none => .error (.github 404 "Not Found")

/-- `repository.create_git_blob(content, "utf-8")`: stores the content
under a fresh sha and returns that sha. -/
def create_git_blob (st : RepoState) (content : String) : Nat × RepoState :=
  (st.nextSha,
   { st with blobs := (st.nextSha, content) :: st.blobs,
             nextSha := st.nextSha + 1,
             log := st.log ++ [.createBlob st.nextSha content] })

/-- `repository.create_git_tree(tree_elements, base_tree=...)`: stores the
submitted entry list under a fresh sha and returns that sha. -/
def create_git_tree (st : RepoState) (entries : List TreeEntry)
    (baseTree : Nat) : Nat × RepoState :=
  (st.nextSha,
   { st with trees := (st.nextSha, entries) :: st.trees,
             nextSha := st.nextSha + 1,
             log := st.log ++ [.createTree st.nextSha entries baseTree] })

/-- `repository.create_git_commit(message, tree, parents)`. -/
def create_git_commit (st : RepoState) (message : String) (tree : Nat)
    (parents : List Nat) : Nat × RepoState :=
  (st.nextSha,
   { st with commits := (st.nextSha, ⟨tree, parents, message⟩) :: st.commits,
             nextSha := st.nextSha + 1,
             log := st.log ++ [.createCommit st.nextSha message tree parents] })

/-- `ref.edit(sha)` on the reference object obtained from
`get_git_ref("heads/branch")`: points the full reference name at `sha`. -/
def ref_edit (st : RepoState) (ref : String) (sha : Nat) : RepoState :=
  { st with refs := st.refs.map
              (fun p => if p.1 = "refs/" ++ ref then ("refs/" ++ ref, sha) else p),
            log := st.log ++ [.editRef ("refs/" ++ ref) sha] }

/-- `repository.create_git_ref(ref, sha)` with a full name like
`"refs/heads/branch"`. -/
def create_git_ref (st : RepoState) (ref : String) (sha : Nat) : RepoState :=
  { st with refs := (ref, sha) :: st.refs,
            log := st.log ++ [.createRef ref sha] }

/-- The blob-creation events of a log. -/
def createdBlobs (l : List GitEvent) : List (Nat × String) :=
  l.filterMap (fun e => match e with
    | .createBlob s c => some (s, c)
    | _ => none)

/-- The `(sha, entries)` of the trees submitted to the server in a log. -/
def submittedTrees (l : List GitEvent) : List (Nat × List TreeEntry) :=
  l.filterMap (fun e => match e with
    | .createTree s entries _ => some (s, entries)
    | _ => none)

/-- The `(sha, message, tree, parents)` of the commits created in a log. -/
def createdCommits (l : List GitEvent) : List (Nat × String × Nat × List Nat) :=
  l.filterMap (fun e => match e with
    | .createCommit s m t ps => some (s, m, t, ps)
    | _ => none)

/-- The reference updates performed in a log. -/
def refEdits (l : List GitEvent) : List (String × Nat) :=
  l.filterMap (fun e => match e with
    | .editRef r s => some (r, s)
    | _ => none)

/-! ### The three branch operations -/

/-- The branch-existence check of `GitHubService.create_branch`
(github.py lines 387-396), as a function of the outcome of the
`get_git_ref("heads/branch")` lookup: a successful lookup raises the
"already exists" `ValueError`; a `GithubException` with status 404 means
the branch does not exist and the check passes; a `GithubException` with
any other status is re-raised; any other exception propagates. -/
def createBranchExistCheck (branch : String) (lookup : Except PyExc Nat) :
    Except PyExc Unit :=
  match lookup with
  | .ok _ => .error (.valueError ("Branch '" ++ branch ++ "' already exists"))
  | .error (.github s m) =>
      if s = 404 then .ok () else .error (.github s m)
  | .error e => .error e

/-- The base-branch resolution of `GitHubService.create_branch`
(github.py lines 399-402): any exception from the lookup is converted into
the "not found" `ValueError`. -/
def baseBranchResolve (base_branch : String) (lookup : Except PyExc Nat) :
    Except PyExc Nat :=
  match lookup with
  | .ok sha => .ok sha
  | .error e =>
      .error (.valueError
        ("Base branch '" ++ base_branch ++ "' not found: " ++ excStr e))

/-- The branch lookup of `GitHubService.push_files_to_branch`
(github.py lines 458-461): any exception is converted into the
"not found" `ValueError`. -/
def pushFilesBranchLookup (branch : String) (lookup : Except PyExc Nat) :
    Except PyExc Nat :=
  match lookup with
  | .ok sha => .ok sha
  | .error e =>
      .error (.valueError
        ("Branch '" ++ branch ++ "' not found: " ++ excStr e))

/-- The mapping returned by `GitHubService.create_branch`. -/
structure BranchResult where
  branch : String
  base_branch : String
  commit_sha : Nat
deriving DecidableEq, Repr

/-- Embedding of `GitHubService.create_branch` (github.py lines 353-411). -/
def create_branch (st : RepoState) (branch base_branch : String) :
    Except PyExc (BranchResult × RepoState) :=
  match createBranchExistCheck branch (get_git_ref st ("heads/" ++ branch)) with
  | .error e => .error e
  | .ok () =>
    match baseBranchResolve base_branch
        (get_git_ref st ("heads/" ++ base_branch)) with
    | .error e => .error e
    | .ok baseSha =>
      let st1 := create_git_ref st ("refs/heads/" ++ branch) baseSha
      .ok ({ branch := branch, base_branch := base_branch,
             commit_sha := baseSha }, st1)

/-- The mapping returned by `GitHubService.push_to_pull_request`. -/
structure PushResult where
  commit_sha : Nat
  branch : String
  file_path : String
  message : String
deriving DecidableEq, Repr

/-- Embedding of `GitHubService.push_to_pull_request`
(github.py lines 270-351). -/
def push_to_pull_request (st : RepoState) (branch file_path content message : String) :
    Except PyExc (PushResult × RepoState) :=
  match get_git_ref st ("heads/" ++ branch) with
  | .error e => .error e
  | .ok refSha =>
    match get_git_commit st refSha with
    | .error e => .error e
    | .ok commit =>
      match get_git_tree st commit.tree with
      | .error e => .error e
      | .ok tree =>
        let (blobSha, st1) := create_git_blob st content
        let tree_elements :=
          tree.filter (fun e => e.path ≠ file_path) ++
            [⟨file_path, "100644", "blob", blobSha⟩]
        let (newTreeSha, st2) := create_git_tree st1 tree_elements commit.tree
        let (newCommitSha, st3) := create_git_commit st2 message newTreeSha [refSha]
        let st4 := ref_edit st3 ("heads/" ++ branch) newCommitSha
        .ok ({ commit_sha := newCommitSha, branch := branch,
               file_path := file_path, message := message }, st4)

/-- The mapping returned by `GitHubService.push_files_to_branch`. -/
structure PushFilesResult where
  commit_sha : Nat
  branch : String
  files : List String
  message : String
deriving DecidableEq, Repr

/-- The blob-creation loop of `push_files_to_branch`
(github.py lines 485-489): one fresh blob and one `InputGitTreeElement`
per `(path, content)` pair, in mapping order. -/
def createBlobsLoop (st : RepoState) (files : List (String × String)) :
    List TreeEntry × RepoState :=
  match files with
  | [] => ([], st)
  | (p, c) :: rest =>
    let (blobSha, st1) := create_git_blob st c
    let (es, st2) := createBlobsLoop st1 rest
    (⟨p, "100644", "blob", blobSha⟩ :: es, st2)

/-- Embedding of `GitHubService.push_files_to_branch`
(github.py lines 413-505).  `files` is the Python dict in insertion
order. -/
def push_files_to_branch (st : RepoState) (branch : String)
    (files : List (String × String)) (message : String) :
    Except PyExc (PushFilesResult × RepoState) :=
  match pushFilesBranchLookup branch (get_git_ref st ("heads/" ++ branch)) with
  | .error e => .error e
  | .ok refSha =>
    match get_git_commit st refSha with
    | .error e => .error e
    | .ok commit =>
      match get_git_tree st commit.tree with
      | .error e => .error e
      | .ok tree =>
        let file_paths := files.map Prod.fst
        let kept := tree.filter (fun e => !file_paths.contains e.path)
        let (newEntries, st1) := createBlobsLoop st files
        let tree_elements := kept ++ newEntries
        let (newTreeSha, st2) := create_git_tree st1 tree_elements commit.tree
        let (newCommitSha, st3) := create_git_commit st2 message newTreeSha [refSha]
        let st4 := ref_edit st3 ("heads/" ++ branch) newCommitSha
        .ok ({ commit_sha := newCommitSha, branch := branch,
               files := files.map Prod.fst, message := message }, st4)

/-- The tree entries the multi-file loop submits for the update set:
consecutive fresh blob shas starting at `base`, one `"100644"`/`"blob"`
entry per path, in mapping order. -/
def mkEntries (base : Nat) : List (String × String) → List TreeEntry
  | [] => []
  | (p, _) :: rest => ⟨p, "100644", "blob", base⟩ :: mkEntries (base + 1) rest

/-- The blobs the multi-file loop creates: consecutive fresh shas starting
at `base`, each holding its path's content, in mapping order. -/
def mkBlobs (base : Nat) : List (String × String) → List (Nat × String)
  | [] => []
  | (_, c) :: rest => (base, c) :: mkBlobs (base + 1) rest

/-- A small concrete repository: one branch `feature` at commit `10`,
whose tree `20` holds the single file `other_file.py` (blob `30`). -/
def sampleState : RepoState :=
  { refs := [("refs/heads/feature", 10)],
    commits := [(10, ⟨20, [], "init"⟩)],
    trees := [(20, [⟨"other_file.py", "100644", "blob", 30⟩])],
    blobs := [(30, "old content")],
    nextSha := 100,
    log := [] }

/-- The comment-creation action chosen by
`GitHubService.create_pull_request_comment` (github.py lines 781-791):
either a line-anchored review comment or a plain issue comment. -/
inductive CommentAction where
  | reviewComment (body commit_id path : String) (line : Int)
      (side : Option String)
  | issueComment (body : String)
deriving DecidableEq, Repr

/-- Embedding of `GitHubService.create_pull_request_comment`
(github.py lines 745-791): `if commit_id and path and line is not None`
chooses the review comment, else the issue comment. -/
def create_pull_request_comment (body : String) (commit_id path : Option String)
    (line : Option Int) (side : Option String) : CommentAction :=
  if truthy commit_id && truthy path && line.isSome then
    .reviewComment body (commit_id.getD "") (path.getD "") (line.getD 0) side
  else
    .issueComment body


/-- The C4 claim as stated by the spec: in the branch-existence checks of
both `create_branch` and `push_files_to_branch`, a 404 SDK exception
means "branch does not exist" and every SDK exception with any other
status is re-raised unchanged (not converted into a validation error). -/
def claimC4Statement : Prop :=
  ∀ (branch : String) (s : Nat) (m : String), s ≠ 404 →
    createBranchExistCheck branch (.error (.github s m)) =
      .error (.github s m) ∧
    pushFilesBranchLookup branch (.error (.github s m)) =
      .error (.github s m)

/-- The C5 claim as stated by the spec: construction of the
Workflow-Automation Client fails with a configuration error whenever the
endpoint is empty, or whenever neither a token nor a complete
username/password pair is supplied. -/
def claimC5Statement : Prop :=
  ∀ (base_url : String) (u p t : Option String) (v : Bool) (n : Nat),
    (base_url = "" ∨ (t = none ∧ ¬ (u ≠ none ∧ p ≠ none))) →
    ∃ m, atlantisInit base_url u p t v n = .error (.valueError m)

/-- The C7 claim as stated by the spec: through the core send primitive,
a response whose status is non-2xx raises an error; a success with status
204 or a blank body yields an empty mapping; any other success yields the
parsed body. -/
def claimC7Statement : Prop :=
  ∀ (status : Nat) (text : String) (parsed : List (String × JVal)),
    (¬ (200 ≤ status ∧ status ≤ 299) →
      ∃ e, handle_response status text parsed = .error e) ∧
    ((200 ≤ status ∧ status ≤ 299) → (status = 204 ∨ text = "") →
      handle_response status text parsed = .ok []) ∧
    ((200 ≤ status ∧ status ≤ 299) → status ≠ 204 → text ≠ "" →
      handle_response status text parsed = .ok parsed)

/-- The C8 claim as stated by the spec: supplying a commit id, a file
path and a line number together produces a line-anchored review comment;
omitting any one of the three produces a plain issue comment. -/
def claimC8Statement : Prop :=
  ∀ (body : String) (commit_id path : Option String) (line : Option Int)
    (side : Option String),
    (commit_id.isSome ∧ path.isSome ∧ line.isSome →
      ∃ c q l, create_pull_request_comment body commit_id path line side =
        .reviewComment body c q l side) ∧
    (¬ (commit_id.isSome ∧ path.isSome ∧ line.isSome) →
      create_pull_request_comment body commit_id path line side =
        .issueComment body)

/-! ## Helper lemmas -/

/-- Unrolling of the blob-creation loop: it returns exactly the
`mkEntries`/`mkBlobs` data and touches nothing but the blob store, the
sha counter and the log. -/
theorem createBlobsLoop_eq (files : List (String × String)) (st : RepoState) :
    createBlobsLoop st files =
      (mkEntries st.nextSha files,
       { st with blobs := (mkBlobs st.nextSha files).reverse ++ st.blobs,
                 nextSha := st.nextSha + files.length,
                 log := st.log ++ (mkBlobs st.nextSha files).map
                          (fun p => GitEvent.createBlob p.1 p.2) }) := by
  induction files generalizing st with
  | nil => simp [createBlobsLoop, mkEntries, mkBlobs]
  | cons hd tl ih =>
    obtain ⟨p, c⟩ := hd
    simp [createBlobsLoop, create_git_blob, ih, mkEntries, mkBlobs,
      Nat.add_comm, Nat.add_assoc, Nat.add_left_comm]

/-! ## Claim theorems -/

/-- C2: for every single-file push (`push_to_pull_request`) on an existing
branch, the tree submitted to the server keeps every existing entry whose
path differs from the target file path unchanged and appends exactly one
new entry for the target path with mode `"100644"` and type `"blob"`
pointing at a fresh blob of the given content; a new commit is created
with the old branch commit as sole parent; the branch reference is updated
exactly once, to the new commit's sha; and the returned mapping holds that
commit sha, the branch name, the file path, and the message. -/
theorem push_to_pull_request_spec (st : RepoState)
    (branch file_path content message : String) (refSha : Nat)
    (commit : GitCommit) (tree : List TreeEntry)
    (h1 : get_git_ref st ("heads/" ++ branch) = .ok refSha)
    (h2 : get_git_commit st refSha = .ok commit)
    (h3 : get_git_tree st commit.tree = .ok tree) :
    ∃ st', push_to_pull_request st branch file_path content message =
        .ok ({ commit_sha := st.nextSha + 2, branch := branch,
               file_path := file_path, message := message }, st') ∧
      createdBlobs (st'.log.drop st.log.length) = [(st.nextSha, content)] ∧
      submittedTrees (st'.log.drop st.log.length) =
        [(st.nextSha + 1,
          tree.filter (fun e => e.path ≠ file_path) ++
            [⟨file_path, "100644", "blob", st.nextSha⟩])] ∧
      createdCommits (st'.log.drop st.log.length) =
        [(st.nextSha + 2, message, st.nextSha + 1, [refSha])] ∧
      refEdits (st'.log.drop st.log.length) =
        [("refs/heads/" ++ branch, st.nextSha + 2)] := by
  unfold push_to_pull_request
  simp only [h1, h2, h3, create_git_blob, create_git_tree, create_git_commit,
    ref_edit]
  refine ⟨_, rfl, ?_, ?_, ?_, ?_⟩ <;>
    simp [createdBlobs, submittedTrees, createdCommits, refEdits,
      List.append_assoc, List.drop_left, List.filterMap, ← String.append_assoc]

/-- Witness for the single-file push specification, at `sampleState`:
the existing entry `other_file.py` is preserved with its sha, exactly one
new entry is added, and the branch ref is updated exactly once. -/
theorem push_to_pull_request_spec_witness :
    ∃ st', push_to_pull_request sampleState "feature" "src/new_file.py"
        "# New file content" "Add new file" =
        .ok ({ commit_sha := 102, branch := "feature",
               file_path := "src/new_file.py", message := "Add new file" }, st') ∧
      createdBlobs st'.log = [(100, "# New file content")] ∧
      submittedTrees st'.log =
        [(101, [⟨"other_file.py", "100644", "blob", 30⟩,
                ⟨"src/new_file.py", "100644", "blob", 100⟩])] ∧
      createdCommits st'.log = [(102, "Add new file", 101, [10])] ∧
      refEdits st'.log = [("refs/heads/feature", 102)] := by
  have h := push_to_pull_request_spec sampleState "feature" "src/new_file.py"
    "# New file content" "Add new file" 10 ⟨20, [], "init"⟩
    [⟨"other_file.py", "100644", "blob", 30⟩] rfl rfl rfl
  obtain ⟨st', h1, h2, h3, h4, h5⟩ := h
  exact ⟨st', h1, h2, h3, h4, h5⟩

/-- Entry `i` of the update set is submitted with the fresh sha
`base + i`, and the blob created under `base + i` holds entry `i`'s
content. -/
theorem mkEntries_mkBlobs_at (base : Nat) (files : List (String × String))
    (i : Nat) (fp : String × String) (h : files[i]? = some fp) :
    (mkEntries base files)[i]? = some ⟨fp.1, "100644", "blob", base + i⟩ ∧
    (mkBlobs base files)[i]? = some (base + i, fp.2) := by
  induction files generalizing base i with
  | nil => simp at h
  | cons hd tl ih =>
    cases i with
    | zero =>
      simp only [List.getElem?_cons_zero, Option.some.injEq] at h
      subst h
      simp [mkEntries, mkBlobs]
    | succ n =>
      simp only [List.getElem?_cons_succ] at h
      have := ih (base + 1) n h
      simp only [mkEntries, mkBlobs, List.getElem?_cons_succ]
      constructor
      · rw [this.1]
        simp [Nat.add_assoc, Nat.add_comm 1 n]
      · rw [this.2]
        simp [Nat.add_assoc, Nat.add_comm 1 n]

/-- The blob events of the multi-file loop project back to their
`(sha, content)` pairs. -/
theorem createdBlobs_map_createBlob (l : List (Nat × String)) :
    createdBlobs (l.map (fun p => GitEvent.createBlob p.1 p.2)) = l := by
  induction l with
  | nil => rfl
  | cons hd tl ih =>
    simp only [createdBlobs, List.filterMap] at ih ⊢
    simp [ih]

/-- `createdBlobs` distributes over append. -/
theorem createdBlobs_append (a b : List GitEvent) :
    createdBlobs (a ++ b) = createdBlobs a ++ createdBlobs b := by
  simp [createdBlobs]

/-- `submittedTrees` distributes over append. -/
theorem submittedTrees_append (a b : List GitEvent) :
    submittedTrees (a ++ b) = submittedTrees a ++ submittedTrees b := by
  simp [submittedTrees]

/-- Blob events submit no trees. -/
theorem submittedTrees_map_createBlob (l : List (Nat × String)) :
    submittedTrees (l.map (fun p => GitEvent.createBlob p.1 p.2)) = [] := by
  induction l with
  | nil => rfl
  | cons hd tl ih =>
    simp only [submittedTrees, List.filterMap] at ih ⊢
    simp [ih]

/-- C1: for every multi-file push (`push_files_to_branch`) on an existing
branch, the tree submitted to the server consists of exactly the existing
entries whose paths are not keys of the files mapping (retained with their
original path, mode, type and sha) followed by, for each path of the
mapping, one `"100644"`/`"blob"` entry at a fresh blob sha holding that
path's content; the returned mapping's `files` list is exactly the key
list of the mapping. -/
theorem push_files_to_branch_spec (st : RepoState) (branch message : String)
    (files : List (String × String)) (refSha : Nat) (commit : GitCommit)
    (tree : List TreeEntry)
    (h1 : get_git_ref st ("heads/" ++ branch) = .ok refSha)
    (h2 : get_git_commit st refSha = .ok commit)
    (h3 : get_git_tree st commit.tree = .ok tree) :
    ∃ st', push_files_to_branch st branch files message =
        .ok ({ commit_sha := st.nextSha + files.length + 1, branch := branch,
               files := files.map Prod.fst, message := message }, st') ∧
      createdBlobs (st'.log.drop st.log.length) = mkBlobs st.nextSha files ∧
      submittedTrees (st'.log.drop st.log.length) =
        [(st.nextSha + files.length,
          tree.filter (fun e => !(files.map Prod.fst).contains e.path) ++
            mkEntries st.nextSha files)] ∧
      (∀ i fp, files[i]? = some fp →
        (mkEntries st.nextSha files)[i]? =
          some ⟨fp.1, "100644", "blob", st.nextSha + i⟩ ∧
        (mkBlobs st.nextSha files)[i]? = some (st.nextSha + i, fp.2)) := by
  unfold push_files_to_branch
  simp only [h1, h2, h3, pushFilesBranchLookup, createBlobsLoop_eq,
    create_git_tree, create_git_commit, ref_edit]
  refine ⟨_, rfl, ?_, ?_, fun i fp h => mkEntries_mkBlobs_at st.nextSha files i fp h⟩
  · simp only [List.append_assoc, List.drop_left, createdBlobs_append,
      createdBlobs_map_createBlob]
    simp [createdBlobs]
  · simp only [List.append_assoc, List.drop_left, submittedTrees_append,
      submittedTrees_map_createBlob]
    simp [submittedTrees]

/-- Witness for the multi-file push specification, at `sampleState` with
two new files: the unrelated entry keeps its sha, the two new paths get
fresh blobs, and the returned `files` list is exactly the two keys. -/
theorem push_files_to_branch_spec_witness :
    ∃ st', push_files_to_branch sampleState "feature"
        [("src/file1.py", "# File 1 content"), ("docs/README.md", "# Documentation")]
        "Add new files" =
        .ok ({ commit_sha := 103, branch := "feature",
               files := ["src/file1.py", "docs/README.md"],
               message := "Add new files" }, st') ∧
      createdBlobs st'.log =
        [(100, "# File 1 content"), (101, "# Documentation")] ∧
      submittedTrees st'.log =
        [(102, [⟨"other_file.py", "100644", "blob", 30⟩,
                ⟨"src/file1.py", "100644", "blob", 100⟩,
                ⟨"docs/README.md", "100644", "blob", 101⟩])] := by
  have h := push_files_to_branch_spec sampleState "feature" "Add new files"
    [("src/file1.py", "# File 1 content"), ("docs/README.md", "# Documentation")]
    10 ⟨20, [], "init"⟩ [⟨"other_file.py", "100644", "blob", 30⟩] rfl rfl rfl
  obtain ⟨st', hok, hblobs, htrees, _⟩ := h
  exact ⟨st', hok, hblobs, htrees⟩

/-- Any string of the form `a ++ ("' already exists")`-shape used by
`create_branch` mentions the phrase "already exists". -/
theorem mentions_already_exists (branch : String) :
    mentions ("Branch '" ++ branch ++ "' already exists") "already exists" := by
  refine ⟨"Branch '" ++ branch ++ "' ", "", ?_⟩
  rw [String.append_empty,
      String.append_assoc ("Branch '" ++ branch) "' " "already exists"]
  rfl

/-- The base-branch error message of `create_branch` mentions the phrase
"not found". -/
theorem mentions_base_not_found (bb r : String) :
    mentions ("Base branch '" ++ bb ++ "' not found: " ++ r) "not found" := by
  refine ⟨"Base branch '" ++ bb ++ "' ", ": " ++ r, ?_⟩
  rw [← String.append_assoc ("Base branch '" ++ bb ++ "' " ++ "not found") ": " r,
      String.append_assoc ("Base branch '" ++ bb) "' " "not found",
      show ("' " : String) ++ "not found" = "' not found" from rfl,
      String.append_assoc ("Base branch '" ++ bb) "' not found" ": ",
      show ("' not found" : String) ++ ": " = "' not found: " from rfl]

/-- The branch error message of `push_files_to_branch` mentions the phrase
"not found". -/
theorem mentions_branch_not_found (b r : String) :
    mentions ("Branch '" ++ b ++ "' not found: " ++ r) "not found" := by
  refine ⟨"Branch '" ++ b ++ "' ", ": " ++ r, ?_⟩
  rw [← String.append_assoc ("Branch '" ++ b ++ "' " ++ "not found") ": " r,
      String.append_assoc ("Branch '" ++ b) "' " "not found",
      show ("' " : String) ++ "not found" = "' not found" from rfl,
      String.append_assoc ("Branch '" ++ b) "' not found" ": ",
      show ("' not found" : String) ++ ": " = "' not found: " from rfl]

/-- C3: `create_branch` fails with a `ValueError` mentioning
"already exists" whenever the target branch ref resolves (checked first,
regardless of the base branch); fails with a distinct `ValueError`
mentioning "not found" when the target branch is absent but the base
branch fails to resolve (checked second); and on success creates a new
branch reference at the base branch's current commit sha and returns the
branch name, base branch name, and that sha. -/
theorem create_branch_spec (st : RepoState) (branch base_branch : String) :
    (∀ sha, get_git_ref st ("heads/" ++ branch) = .ok sha →
      create_branch st branch base_branch =
        .error (.valueError ("Branch '" ++ branch ++ "' already exists")) ∧
      mentions ("Branch '" ++ branch ++ "' already exists") "already exists")
    ∧
    (∀ m e, get_git_ref st ("heads/" ++ branch) = .error (.github 404 m) →
      get_git_ref st ("heads/" ++ base_branch) = .error e →
      ∃ m2, create_branch st branch base_branch = .error (.valueError m2) ∧
        mentions m2 "not found")
    ∧
    (∀ m sha, get_git_ref st ("heads/" ++ branch) = .error (.github 404 m) →
      get_git_ref st ("heads/" ++ base_branch) = .ok sha →
      create_branch st branch base_branch =
        .ok ({ branch := branch, base_branch := base_branch, commit_sha := sha },
             { st with refs := ("refs/heads/" ++ branch, sha) :: st.refs,
                       log := st.log ++
                         [.createRef ("refs/heads/" ++ branch) sha] })) := by
  refine ⟨?_, ?_, ?_⟩
  · intro sha h
    exact ⟨by simp [create_branch, createBranchExistCheck, h],
           mentions_already_exists branch⟩
  · intro m e h hb
    refine ⟨"Base branch '" ++ base_branch ++ "' not found: " ++ excStr e,
      ?_, mentions_base_not_found base_branch (excStr e)⟩
    simp [create_branch, createBranchExistCheck, baseBranchResolve, h, hb]
  · intro m sha h hb
    simp [create_branch, createBranchExistCheck, baseBranchResolve, h, hb,
      create_git_ref]

/-- Witness for the `create_branch` specification: at `sampleState`,
creating existing `feature` fails with "already exists" whatever the base;
creating `newb` from missing `nope` fails mentioning "not found";
creating `newb` from `feature` succeeds at commit 10. -/
theorem create_branch_spec_witness :
    (create_branch sampleState "feature" "main" =
      .error (.valueError "Branch 'feature' already exists")) ∧
    (∃ m2, create_branch sampleState "newb" "nope" =
      .error (.valueError m2) ∧ mentions m2 "not found") ∧
    (create_branch sampleState "newb" "feature" =
      .ok ({ branch := "newb", base_branch := "feature", commit_sha := 10 },
           { refs := [("refs/heads/newb", 10), ("refs/heads/feature", 10)],
             commits := [(10, ⟨20, [], "init"⟩)],
             trees := [(20, [⟨"other_file.py", "100644", "blob", 30⟩])],
             blobs := [(30, "old content")],
             nextSha := 100,
             log := [.createRef "refs/heads/newb" 10] })) := by
  refine ⟨?_, ?_, ?_⟩
  · exact ((create_branch_spec sampleState "feature" "main").1 10 rfl).1
  · exact (create_branch_spec sampleState "newb" "nope").2.1
      "Not Found" (.github 404 "Not Found") rfl rfl
  · exact (create_branch_spec sampleState "newb" "feature").2.2
      "Not Found" 10 rfl rfl

/-- C4 counterexample: in `push_files_to_branch`'s branch lookup, a
`GithubException` with status 500 is converted into a `ValueError`
("Branch ... not found: ..."), not re-raised unchanged. -/
theorem claimC4_counterexample : ¬ claimC4Statement := by
  intro h
  have h2 := (h "feature" 500 "Server Error" (by decide)).2
  simp [pushFilesBranchLookup] at h2

/-- C4 amended: a 404 status means "branch does not exist" in
`create_branch`'s existence check, which re-raises every other status
unchanged; `push_files_to_branch`'s branch lookup instead converts every
exception, whatever its status, into the "not found" validation error. -/
theorem branch_existence_check_spec (branch : String) (s : Nat) (m : String)
    (e : PyExc) :
    createBranchExistCheck branch (.error (.github s m)) =
      (if s = 404 then .ok () else .error (.github s m)) ∧
    pushFilesBranchLookup branch (.error e) =
      .error (.valueError ("Branch '" ++ branch ++ "' not found: " ++ excStr e)) ∧
    mentions ("Branch '" ++ branch ++ "' not found: " ++ excStr e) "not found" :=
  ⟨rfl, rfl, mentions_branch_not_found branch (excStr e)⟩

/-- C5 counterexample: a username alone (no password, no token) supplies
neither a token nor a username/password pair, yet construction
succeeds. -/
theorem claimC5_counterexample : ¬ claimC5Statement := by
  intro h
  obtain ⟨m, hm⟩ := h "https://x.com" (some "user") none none true 30
    (Or.inr ⟨rfl, by simp⟩)
  rw [show atlantisInit "https://x.com" (some "user") none none true 30 =
    .ok ⟨"https://x.com", none, [], true, 30⟩ from rfl] at hm
  exact Except.noConfusion hm

/-- C5 amended: construction fails iff the endpoint is empty or all three
of username, password and token are unsupplied/empty (so a lone username
or password passes the check); a nonempty token sets exactly the two
headers and leaves basic auth unset; a username/password pair without a
token sets basic auth and leaves the headers empty. -/
theorem atlantisInit_spec (base_url : String) (u p t : Option String)
    (v : Bool) (n : Nat) :
    (base_url = "" →
      atlantisInit base_url u p t v n =
        .error (.valueError "base_url is required")) ∧
    (base_url ≠ "" → truthy u = false → truthy p = false → truthy t = false →
      atlantisInit base_url u p t v n = .error (.valueError
        "Either username/password or token must be provided for authentication")) ∧
    (base_url ≠ "" → truthy t = true →
      atlantisInit base_url u p t v n = .ok
        { base_url := rstripSlash base_url, auth := none,
          headers := [("X-Atlantis-Token", t.getD ""),
                      ("Authorization", "Bearer " ++ t.getD "")],
          verify_ssl := v, timeout := n }) ∧
    (base_url ≠ "" → truthy t = false → truthy u = true → truthy p = true →
      atlantisInit base_url u p t v n = .ok
        { base_url := rstripSlash base_url,
          auth := some (u.getD "", p.getD ""),
          headers := [], verify_ssl := v, timeout := n }) := by
  refine ⟨?_, ?_, ?_, ?_⟩
  · intro h
    simp [atlantisInit, h]
  · intro h hu hp ht
    simp [atlantisInit, h, hu, hp, ht]
  · intro h ht
    simp [atlantisInit, h, ht]
  · intro h ht hu hp
    simp [atlantisInit, h, ht, hu, hp]

/-- Witness for the construction contract: empty endpoint fails; no
credentials at all fails; a token (even alongside a pair) sets the two
headers exclusively; a pair without token sets basic auth exclusively. -/
theorem atlantisInit_spec_witness :
    atlantisInit "" none none (some "tok") true 30 =
      .error (.valueError "base_url is required") ∧
    atlantisInit "https://x.com" none none none true 30 =
      .error (.valueError
        "Either username/password or token must be provided for authentication") ∧
    atlantisInit "https://x.com" (some "u") (some "pw") (some "tok") true 30 =
      .ok { base_url := "https://x.com", auth := none,
            headers := [("X-Atlantis-Token", "tok"),
                        ("Authorization", "Bearer tok")],
            verify_ssl := true, timeout := 30 } ∧
    atlantisInit "https://x.com" (some "u") (some "pw") none true 30 =
      .ok { base_url := "https://x.com", auth := some ("u", "pw"),
            headers := [], verify_ssl := true, timeout := 30 } :=
  ⟨(atlantisInit_spec "" none none (some "tok") true 30).1 rfl,
   (atlantisInit_spec "https://x.com" none none none true 30).2.1
     (by decide) rfl rfl rfl,
   (atlantisInit_spec "https://x.com" (some "u") (some "pw") (some "tok") true 30).2.2.1
     (by decide) rfl,
   (atlantisInit_spec "https://x.com" (some "u") (some "pw") none true 30).2.2.2
     (by decide) rfl rfl rfl⟩

/-- C10: constructing the client with a non-empty endpoint and only a
username (no password, no token), or only a password, succeeds without
raising but configures neither auth mechanism: basic auth stays unset,
the header mapping stays empty, and every request built afterwards
carries no credential and no headers. -/
theorem atlantisInit_partial_credentials (base_url : String)
    (h : base_url ≠ "") (u p : String) (hu : u ≠ "") (hp : p ≠ "")
    (v : Bool) (n : Nat) :
    (∃ st, atlantisInit base_url (some u) none none v n = .ok st ∧
      st.auth = none ∧ st.headers = [] ∧
      ∀ method endpoint params jd,
        (buildRequest st method endpoint params jd).auth = none ∧
        (buildRequest st method endpoint params jd).headers = []) ∧
    (∃ st, atlantisInit base_url none (some p) none v n = .ok st ∧
      st.auth = none ∧ st.headers = [] ∧
      ∀ method endpoint params jd,
        (buildRequest st method endpoint params jd).auth = none ∧
        (buildRequest st method endpoint params jd).headers = []) := by
  constructor
  · refine ⟨⟨rstripSlash base_url, none, [], v, n⟩, ?_, rfl, rfl,
      fun _ _ _ _ => ⟨rfl, rfl⟩⟩
    simp [atlantisInit, truthy, h, hu]
  · refine ⟨⟨rstripSlash base_url, none, [], v, n⟩, ?_, rfl, rfl,
      fun _ _ _ _ => ⟨rfl, rfl⟩⟩
    simp [atlantisInit, truthy, h, hp]

/-- Witness for C10 at concrete inputs. -/
theorem atlantisInit_partial_credentials_witness :
    (∃ st, atlantisInit "https://x.com" (some "user") none none true 30 = .ok st ∧
      st.auth = none ∧ st.headers = [] ∧
      ∀ method endpoint params jd,
        (buildRequest st method endpoint params jd).auth = none ∧
        (buildRequest st method endpoint params jd).headers = []) ∧
    (∃ st, atlantisInit "https://x.com" none (some "pass") none true 30 = .ok st ∧
      st.auth = none ∧ st.headers = [] ∧
      ∀ method endpoint params jd,
        (buildRequest st method endpoint params jd).auth = none ∧
        (buildRequest st method endpoint params jd).headers = []) :=
  atlantisInit_partial_credentials "https://x.com" (by decide) "user" "pass"
    (by decide) (by decide) true 30

/-- C6: the JSON body of every `plan` and `apply` request holds exactly
the capitalized keys `Repository`, `Ref`, `Type`, `Paths` bound to the
corresponding arguments, with `PR` (bound to the PR number) present iff a
PR number argument was supplied. -/
theorem plan_apply_payload_spec (st : AtlantisState)
    (repository ref vcs_type : String)
    (paths : List (List (String × String))) (pr_number : Option Int) :
    (plan st repository ref vcs_type paths pr_number).json_data =
      some (planApplyPayload repository ref vcs_type paths pr_number) ∧
    (applyOp st repository ref vcs_type paths pr_number).json_data =
      some (planApplyPayload repository ref vcs_type paths pr_number) ∧
    (planApplyPayload repository ref vcs_type paths pr_number).map Prod.fst =
      (["Repository", "Ref", "Type", "Paths"] ++
        if pr_number.isSome then ["PR"] else []) ∧
    (planApplyPayload repository ref vcs_type paths pr_number).lookup
      "Repository" = some (.str repository) ∧
    (planApplyPayload repository ref vcs_type paths pr_number).lookup
      "Ref" = some (.str ref) ∧
    (planApplyPayload repository ref vcs_type paths pr_number).lookup
      "Type" = some (.str vcs_type) ∧
    (planApplyPayload repository ref vcs_type paths pr_number).lookup
      "Paths" = some (.arr (paths.map pathsObj)) ∧
    (planApplyPayload repository ref vcs_type paths pr_number).lookup
      "PR" = pr_number.map JVal.int := by
  cases pr_number <;>
    simp [plan, applyOp, buildRequest, planApplyPayload, List.lookup]

/-- C7 counterexample: status 304 is not 2xx, yet `raise_for_status`
raises only for 4xx/5xx, so the call returns an empty mapping instead of
raising. -/
theorem claimC7_counterexample : ¬ claimC7Statement := by
  intro h
  obtain ⟨e, he⟩ := (h 304 "" []).1 (by decide)
  rw [show handle_response 304 "" [] = .ok [] from rfl] at he
  exact Except.noConfusion he

/-- C7 amended: a status in `[400, 600)` raises the HTTP error; any other
status with status 204 or a blank body yields an empty mapping; any other
status with a non-blank body yields the parsed JSON body — regardless of
the request method, which the response handling never inspects. -/
theorem handle_response_spec (status : Nat) (text : String)
    (parsed : List (String × JVal)) :
    (400 ≤ status ∧ status < 600 →
      handle_response status text parsed = .error (.httpError status)) ∧
    (¬ (400 ≤ status ∧ status < 600) → (status = 204 ∨ text = "") →
      handle_response status text parsed = .ok []) ∧
    (¬ (400 ≤ status ∧ status < 600) → status ≠ 204 → text ≠ "" →
      handle_response status text parsed = .ok parsed) := by
  refine ⟨?_, ?_, ?_⟩
  · intro h
    simp [handle_response, raise_for_status, h]
  · intro h hb
    simp [handle_response, raise_for_status, h, hb]
  · intro h h204 htext
    simp [handle_response, raise_for_status, h, h204, htext]

/-- Witness for the response handling: 404 raises; 204 yields the empty
mapping; 200 with a body yields the parsed body. -/
theorem handle_response_spec_witness :
    handle_response 404 "err" [] = .error (.httpError 404) ∧
    handle_response 204 "ignored" [("a", .int 1)] = .ok [] ∧
    handle_response 200 "ok" [("a", .int 1)] = .ok [("a", .int 1)] :=
  ⟨(handle_response_spec 404 "err" []).1 (by decide),
   (handle_response_spec 204 "ignored" [("a", .int 1)]).2.1
     (by decide) (Or.inl rfl),
   (handle_response_spec 200 "ok" [("a", .int 1)]).2.2
     (by decide) (by decide) (by decide)⟩

/-- C8 counterexample: an empty-string commit id is supplied (not
omitted), yet Python truthiness sends the call down the issue-comment
branch. -/
theorem claimC8_counterexample : ¬ claimC8Statement := by
  intro h
  obtain ⟨c, q, l, hc⟩ :=
    (h "looks good" (some "") (some "a.py") (some 3) none).1
      ⟨rfl, rfl, rfl⟩
  rw [show create_pull_request_comment "looks good" (some "")
    (some "a.py") (some 3) none = .issueComment "looks good" from rfl] at hc
  exact CommentAction.noConfusion hc

/-- C8 amended: a review comment (with the diff side passed through) is
created iff the commit id and path are supplied as non-empty strings and
a line number is supplied; otherwise — any of the three absent, or the
commit id or path empty — a plain issue comment with the body is
created. -/
theorem create_pull_request_comment_spec (body : String)
    (commit_id path : Option String) (line : Option Int)
    (side : Option String) :
    (truthy commit_id = true → truthy path = true → line.isSome = true →
      create_pull_request_comment body commit_id path line side =
        .reviewComment body (commit_id.getD "") (path.getD "")
          (line.getD 0) side) ∧
    (truthy commit_id = false ∨ truthy path = false ∨ line.isSome = false →
      create_pull_request_comment body commit_id path line side =
        .issueComment body) := by
  constructor
  · intro hc hp hl
    simp [create_pull_request_comment, hc, hp, hl]
  · intro h
    rcases h with h | h | h <;> simp [create_pull_request_comment, h]

/-- Witness for the comment decision: all three supplied (and non-empty)
gives a review comment with the side passed through; omitting the line
gives an issue comment. -/
theorem create_pull_request_comment_spec_witness :
    create_pull_request_comment "nice" (some "abc123") (some "a.py")
      (some 7) (some "RIGHT") =
      .reviewComment "nice" "abc123" "a.py" 7 (some "RIGHT") ∧
    create_pull_request_comment "nice" (some "abc123") (some "a.py")
      none (some "RIGHT") = .issueComment "nice" :=
  ⟨(create_pull_request_comment_spec "nice" (some "abc123") (some "a.py")
      (some 7) (some "RIGHT")).1 rfl rfl rfl,
   (create_pull_request_comment_spec "nice" (some "abc123") (some "a.py")
      none (some "RIGHT")).2 (Or.inr (Or.inr rfl))⟩

/-- `rstripSlash` leaves no trailing slash. -/
theorem rstripSlash_no_trailing (s : String) (c : Char)
    (h : (rstripSlash s).data.getLast? = some c) : c ≠ '/' := by
  unfold rstripSlash at h
  simp only [List.getLast?_reverse] at h
  intro hc
  subst hc
  have := List.head?_dropWhile_not (fun c => c = '/') s.data.reverse
  rw [h] at this
  simp at this

/-- `rstripSlash` removes exactly a (possibly empty) run of trailing
slashes. -/
theorem rstripSlash_split (s : String) :
    ∃ k, s = rstripSlash s ++ String.mk (List.replicate k '/') := by
  refine ⟨(s.data.reverse.takeWhile (fun c => decide (c = '/'))).length, ?_⟩
  have hsplit := List.takeWhile_append_dropWhile
    (p := fun c => decide (c = '/')) (l := s.data.reverse)
  have hlist : s.data =
      (s.data.reverse.dropWhile (fun c => decide (c = '/'))).reverse ++
        List.replicate
          (s.data.reverse.takeWhile (fun c => decide (c = '/'))).length '/' := by
    conv_lhs => rw [← List.reverse_reverse s.data, ← hsplit]
    rw [List.reverse_append]
    congr 1
    rw [List.eq_replicate_of_mem
      (a := '/')
      (l := (s.data.reverse.takeWhile (fun c => decide (c = '/'))).reverse)
      (fun b hb => by simpa using List.mem_takeWhile_imp (List.mem_reverse.mp hb))]
    simp
  calc s = String.mk s.data := rfl
    _ = String.mk
        ((s.data.reverse.dropWhile (fun c => decide (c = '/'))).reverse ++
          List.replicate
            (s.data.reverse.takeWhile (fun c => decide (c = '/'))).length '/') := by
        rw [← hlist]
    _ = rstripSlash s ++ String.mk (List.replicate
          (s.data.reverse.takeWhile (fun c => decide (c = '/'))).length '/') := rfl

/-- A string without a trailing slash is unchanged by `rstripSlash`. -/
theorem rstripSlash_id (s : String) (h : s.data.getLast? ≠ some '/') :
    rstripSlash s = s := by
  have hkey : s.data.reverse.dropWhile (fun c => decide (c = '/')) =
      s.data.reverse := by
    cases hr : s.data.reverse with
    | nil => simp
    | cons a l =>
      rw [List.dropWhile_cons]
      have ha : a ≠ '/' := by
        intro hc
        apply h
        rw [← List.head?_reverse, hr, hc]
        rfl
      simp [ha]
  show String.mk ((s.data.reverse.dropWhile (fun c => decide (c = '/'))).reverse) = s
  rw [hkey, List.reverse_reverse]

/-- C9: every successfully constructed client stores the endpoint with
its trailing slashes stripped — what is stored is the endpoint minus a
run of trailing slashes, itself ending in no slash, and an endpoint with
no trailing slash is stored unchanged — and every URL later built by the
request primitive is the stored endpoint followed by the path. -/
theorem base_url_normalization (base_url : String) (u p t : Option String)
    (v : Bool) (n : Nat) (st : AtlantisState)
    (h : atlantisInit base_url u p t v n = .ok st) :
    st.base_url = rstripSlash base_url ∧
    (∃ k, base_url = st.base_url ++ String.mk (List.replicate k '/')) ∧
    (∀ c, st.base_url.data.getLast? = some c → c ≠ '/') ∧
    (base_url.data.getLast? ≠ some '/' → st.base_url = base_url) ∧
    (∀ method endpoint params jd,
      (buildRequest st method endpoint params jd).url =
        st.base_url ++ endpoint) := by
  have hb : st.base_url = rstripSlash base_url := by
    unfold atlantisInit at h
    split at h
    · exact Except.noConfusion h
    · split at h
      · exact Except.noConfusion h
      · split at h
        · cases h; rfl
        · split at h
          · cases h; rfl
          · cases h; rfl
  refine ⟨hb, ?_, ?_, ?_, fun _ _ _ _ => rfl⟩
  · rw [hb]
    exact rstripSlash_split base_url
  · rw [hb]
    exact fun c hc => rstripSlash_no_trailing base_url c hc
  · intro hlast
    rw [hb]
    exact rstripSlash_id base_url hlast

/-- Witness for the endpoint normalization: `"https://x.com/"` is stored
as `"https://x.com"`, which ends in no slash. -/
theorem base_url_normalization_witness :
    (∃ k, ("https://x.com/" : String) =
      "https://x.com" ++ String.mk (List.replicate k '/')) ∧
    (∀ c, ("https://x.com" : String).data.getLast? = some c → c ≠ '/') := by
  have h := base_url_normalization "https://x.com/" none none (some "tok")
    true 30
    ⟨"https://x.com", none,
     [("X-Atlantis-Token", "tok"), ("Authorization", "Bearer tok")],
     true, 30⟩ rfl
  exact ⟨h.2.1, h.2.2.1⟩
